import Mathlib

/-!
Verification development for the platform layer of OpenImageIO
(`src/include/OpenImageIO/platform.h`): the CPU feature-detection helpers,
the aligned-allocation utilities, the endianness helpers and the
`OIIO_ALLOCA` macro. The C++ functions are embedded shallowly: the host
hardware's cpuid instruction is an oracle parameter, the 32-bit output
registers are natural numbers, and the build configuration (architecture,
Windows vs. not, checked vs. unchecked build) is passed explicitly.
-/

namespace OIIO

/-- The four 32-bit outputs of the x86 `cpuid` instruction. In
`cpuid(int info[4], ...)`, `info[0]` is EAX, `info[1]` is EBX, `info[2]`
is ECX and `info[3]` is EDX (the order fixed by `__cpuidex` and by the
inline-asm constraints in the source). -/
structure CpuidOut where
  eax : Nat
  ebx : Nat
  ecx : Nat
  edx : Nat
deriving DecidableEq, Repr

/-- The hardware's response to the identification instruction: a function
from (leaf `infoType`, sub-leaf `extra`) to the four output registers.
This is the immutable per-process hardware capability state. -/
def CpuidFn : Type := Nat → Nat → CpuidOut

/-- Embedding of `cpuid (int info[4], int infoType, int extra)` from
platform.h lines 564-587. On x86/x86-64 builds (`isX86 = true`) it issues
the identification instruction, i.e. reads the hardware oracle at
(infoType, extra); on every other architecture it stores zero into all
four output slots. -/
def cpuid (isX86 : Bool) (hw : CpuidFn) (infoType extra : Nat) : CpuidOut :=
  if isX86 then hw infoType extra else ⟨0, 0, 0, 0⟩

/-- Embedding of `cpu_has_sse2`: cpuid leaf 1 sub-leaf 0, tests `i[3] & (1<<26)`. -/
def cpu_has_sse2 (isX86 : Bool) (hw : CpuidFn) : Bool :=
  let i := cpuid isX86 hw 1 0
  (i.edx &&& (1 <<< 26)) != 0

/-- Embedding of `cpu_has_sse3`: cpuid leaf 1 sub-leaf 0, tests `i[2] & (1<<0)`. -/
def cpu_has_sse3 (isX86 : Bool) (hw : CpuidFn) : Bool :=
  let i := cpuid isX86 hw 1 0
  (i.ecx &&& (1 <<< 0)) != 0

/-- Embedding of `cpu_has_ssse3`: cpuid leaf 1 sub-leaf 0, tests `i[2] & (1<<9)`. -/
def cpu_has_ssse3 (isX86 : Bool) (hw : CpuidFn) : Bool :=
  let i := cpuid isX86 hw 1 0
  (i.ecx &&& (1 <<< 9)) != 0

/-- Embedding of `cpu_has_fma`: cpuid leaf 1 sub-leaf 0, tests `i[2] & (1<<12)`. -/
def cpu_has_fma (isX86 : Bool) (hw : CpuidFn) : Bool :=
  let i := cpuid isX86 hw 1 0
  (i.ecx &&& (1 <<< 12)) != 0

/-- Embedding of `cpu_has_sse41`: cpuid leaf 1 sub-leaf 0, tests `i[2] & (1<<19)`. -/
def cpu_has_sse41 (isX86 : Bool) (hw : CpuidFn) : Bool :=
  let i := cpuid isX86 hw 1 0
  (i.ecx &&& (1 <<< 19)) != 0

/-- Embedding of `cpu_has_sse42`: cpuid leaf 1 sub-leaf 0, tests `i[2] & (1<<20)`. -/
def cpu_has_sse42 (isX86 : Bool) (hw : CpuidFn) : Bool :=
  let i := cpuid isX86 hw 1 0
  (i.ecx &&& (1 <<< 20)) != 0

/-- Embedding of `cpu_has_popcnt`: cpuid leaf 1 sub-leaf 0, tests `i[2] & (1<<23)`. -/
def cpu_has_popcnt (isX86 : Bool) (hw : CpuidFn) : Bool :=
  let i := cpuid isX86 hw 1 0
  (i.ecx &&& (1 <<< 23)) != 0

/-- Embedding of `cpu_has_avx`: cpuid leaf 1 sub-leaf 0, tests `i[2] & (1<<28)`. -/
def cpu_has_avx (isX86 : Bool) (hw : CpuidFn) : Bool :=
  let i := cpuid isX86 hw 1 0
  (i.ecx &&& (1 <<< 28)) != 0

/-- Embedding of `cpu_has_f16c`: cpuid leaf 1 sub-leaf 0, tests `i[2] & (1<<29)`. -/
def cpu_has_f16c (isX86 : Bool) (hw : CpuidFn) : Bool :=
  let i := cpuid isX86 hw 1 0
  (i.ecx &&& (1 <<< 29)) != 0

/-- Embedding of `cpu_has_rdrand`: cpuid leaf 1 sub-leaf 0, tests `i[2] & (1<<30)`. -/
def cpu_has_rdrand (isX86 : Bool) (hw : CpuidFn) : Bool :=
  let i := cpuid isX86 hw 1 0
  (i.ecx &&& (1 <<< 30)) != 0

/-- Embedding of `cpu_has_avx2`: cpuid leaf 7 sub-leaf 0, tests `i[1] & (1<<5)`. -/
def cpu_has_avx2 (isX86 : Bool) (hw : CpuidFn) : Bool :=
  let i := cpuid isX86 hw 7 0
  (i.ebx &&& (1 <<< 5)) != 0

/-- Embedding of `cpu_has_avx512f`: cpuid leaf 7 sub-leaf 0, tests `i[1] & (1<<16)`. -/
def cpu_has_avx512f (isX86 : Bool) (hw : CpuidFn) : Bool :=
  let i := cpuid isX86 hw 7 0
  (i.ebx &&& (1 <<< 16)) != 0

/-- Embedding of `cpu_has_avx512dq`: cpuid leaf 7 sub-leaf 0, tests `i[1] & (1<<17)`. -/
def cpu_has_avx512dq (isX86 : Bool) (hw : CpuidFn) : Bool :=
  let i := cpuid isX86 hw 7 0
  (i.ebx &&& (1 <<< 17)) != 0

/-- Embedding of `cpu_has_avx512ifma`: cpuid leaf 7 sub-leaf 0, tests `i[1] & (1<<21)`. -/
def cpu_has_avx512ifma (isX86 : Bool) (hw : CpuidFn) : Bool :=
  let i := cpuid isX86 hw 7 0
  (i.ebx &&& (1 <<< 21)) != 0

/-- Embedding of `cpu_has_avx512pf`: cpuid leaf 7 sub-leaf 0, tests `i[1] & (1<<26)`. -/
def cpu_has_avx512pf (isX86 : Bool) (hw : CpuidFn) : Bool :=
  let i := cpuid isX86 hw 7 0
  (i.ebx &&& (1 <<< 26)) != 0

/-- Embedding of `cpu_has_avx512er() { return false; /* knights landing only */ }`:
hard-coded to false, never calls `cpuid`. The parameters are kept so the
theorems can state independence from the architecture and the hardware. -/
def cpu_has_avx512er (_isX86 : Bool) (_hw : CpuidFn) : Bool :=
  false

/-- Embedding of `cpu_has_avx512cd`: cpuid leaf 7 sub-leaf 0, tests `i[1] & (1<<28)`. -/
def cpu_has_avx512cd (isX86 : Bool) (hw : CpuidFn) : Bool :=
  let i := cpuid isX86 hw 7 0
  (i.ebx &&& (1 <<< 28)) != 0

/-- Embedding of `cpu_has_avx512bw`: cpuid leaf 7 sub-leaf 0, tests `i[1] & (1<<30)`. -/
def cpu_has_avx512bw (isX86 : Bool) (hw : CpuidFn) : Bool :=
  let i := cpuid isX86 hw 7 0
  (i.ebx &&& (1 <<< 30)) != 0

/-- Embedding of `cpu_has_avx512vl`: cpuid leaf 7 sub-leaf 0, tests
`i[1] & 0x80000000` (bit 31). -/
def cpu_has_avx512vl (isX86 : Bool) (hw : CpuidFn) : Bool :=
  let i := cpuid isX86 hw 7 0
  (i.ebx &&& 0x80000000) != 0

/-- Testing a single bit with a power-of-two mask: `(x & m) != 0` with
`m = 2 ^ n` is exactly `testBit x n`. -/
theorem and_pow_ne_zero (x n m : Nat) (hm : m = 2 ^ n) :
    ((x &&& m) != 0) = x.testBit n := by
  subst hm
  rw [Nat.and_two_pow]
  have hpos : (2 : Nat) ^ n ≠ 0 := Nat.pos_iff_ne_zero.mp (Nat.pos_pow_of_pos n (by norm_num))
  cases h : x.testBit n <;> simp [h, hpos]

/-- Bit 0 after simp normalisation: Nat boolean equality against the
decidable proposition. -/
theorem mod_two_beq_one (x : Nat) : ((x % 2 == 1) = decide (x % 2 = 1)) := by
  rcases Nat.mod_two_eq_zero_or_one x with h | h <;> rw [h] <;> rfl

/-- Compile-time description of a C++ type `T` as the aligned helpers see
it: its `sizeof` and its `alignof`. -/
structure TypeInfo where
  size : Nat
  align : Nat
deriving DecidableEq, Repr

/-- An aligned block: start address and byte count. -/
structure Block where
  addr : Nat
  size : Nat
deriving DecidableEq, Repr

/-- Modelled from the spec: the implementation of `aligned_malloc` is not
under src (platform.h line 611 only declares `OIIO_API void*
aligned_malloc(std::size_t size, std::size_t align)`). Following the
spec's words: for a power-of-two `align` it "either returns null or
returns a non-null address a such that a mod align == 0" heading a block
of at least `size` bytes, with failure reported only through the null
return. The underlying platform allocator is modelled as an oracle `os`
that either fails (`none`) or supplies a raw address with enough slack;
`aligned_malloc` rounds the raw address up to the next multiple of
`align`. -/
def aligned_malloc (os : Nat → Nat → Option Nat) (size align : Nat) :
    Option Block :=
  match os size align with
  | none => none
  | some raw => some ⟨raw + (align - raw % align) % align, size⟩

/-- Observable events of the aligned-allocation helpers: a call to
`aligned_malloc` (with its arguments and its result), a call to
`aligned_free`, a placement-new constructor invocation, a destructor
invocation. `aligned_free` is likewise only declared in the header; for
the round-trip claims only the fact of the call matters, so it is
recorded as an event. -/
inductive AEvent where
  | malloc (size align : Nat) (result : Option Nat)
  | free (addr : Nat)
  | construct (addr : Nat)
  | destruct (addr : Nat)
deriving DecidableEq, Repr

/-- The compile-time guard in `aligned_new` (platform.h line 617):
`static_assert(alignof(T) > alignof(void*), "Type doesn't seem to be
over-aligned, aligned_new is not required")`. `true` means the
instantiation compiles, `false` means it is rejected. -/
def aligned_new_static_assert (T : TypeInfo) (alignof_voidptr : Nat) : Bool :=
  T.align > alignof_voidptr

/-- Embedding of `aligned_new<T>(args...)` (platform.h lines 615-623):
`void* ptr = aligned_malloc(sizeof(T), alignof(T)); return ptr ? new (ptr)
T(std::forward<Args>(args)...) : nullptr;`. Returns the resulting pointer
(`none` models nullptr) together with the trace of events. -/
def aligned_new (T : TypeInfo) (os : Nat → Nat → Option Nat) :
    Option Nat × List AEvent :=
  match aligned_malloc os T.size T.align with
  | none => (none, [AEvent.malloc T.size T.align none])
  | some b =>
    (some b.addr, [AEvent.malloc T.size T.align (some b.addr),
                   AEvent.construct b.addr])

/-- Embedding of `aligned_delete<T>(T* t)` (platform.h lines 625-631):
`if (t) { t->~T(); aligned_free(t); }`. Returns the trace of events;
`none` models a null argument. -/
def aligned_delete (_T : TypeInfo) (t : Option Nat) : List AEvent :=
  match t with
  | none => []
  | some p => [AEvent.destruct p, AEvent.free p]

/-- The full round trip `aligned_delete(aligned_new<T>(args...))`:
concatenated trace of both calls. -/
def new_delete_roundtrip (T : TypeInfo) (os : Nat → Nat → Option Nat) :
    List AEvent :=
  let r := aligned_new T os
  r.2 ++ aligned_delete T r.1

/-- Count of constructor invocations in a trace. -/
def countConstructs (tr : List AEvent) : Nat :=
  (tr.filter (fun e => match e with | AEvent.construct _ => true | _ => false)).length

/-- Count of destructor invocations in a trace. -/
def countDestructs (tr : List AEvent) : Nat :=
  (tr.filter (fun e => match e with | AEvent.destruct _ => true | _ => false)).length

/-- The addresses of the blocks successfully obtained from
`aligned_malloc` in a trace, in order. -/
def mallocedAddrs (tr : List AEvent) : List Nat :=
  tr.filterMap (fun e => match e with | AEvent.malloc _ _ (some a) => some a | _ => none)

/-- The addresses passed to `aligned_free` in a trace, in order. -/
def freedAddrs (tr : List AEvent) : List Nat :=
  tr.filterMap (fun e => match e with | AEvent.free a => some a | _ => none)

/-- The `endian` enum values possible for `__BYTE_ORDER__` on the
non-Windows (gcc/clang/icc) branch. -/
inductive ByteOrder where
  | little
  | big
  | pdp
deriving DecidableEq, Repr

/-- The numeric value a `ByteOrder` takes as the corresponding gcc/clang predefined constant
(`__ORDER_LITTLE_ENDIAN__ = 1234`, `__ORDER_BIG_ENDIAN__ = 4321`,
`__ORDER_PDP_ENDIAN__ = 3412`). -/
def ByteOrder.value : ByteOrder → Nat
  | ByteOrder.little => 1234
  | ByteOrder.big => 4321
  | ByteOrder.pdp => 3412

/-- A build configuration for the `endian` enum: whether `_WIN32` is
defined and, when it is not, the value of `__BYTE_ORDER__`. -/
structure BuildConfig where
  isWin32 : Bool
  byteOrder : ByteOrder
deriving DecidableEq, Repr

/-- Embedding of `endian::little` (platform.h lines 533-543): `0` on Windows,
`__ORDER_LITTLE_ENDIAN__` otherwise. -/
def endian_little (cfg : BuildConfig) : Nat :=
  if cfg.isWin32 then 0 else ByteOrder.little.value

/-- Embedding of `endian::big`: `1` on Windows, `__ORDER_BIG_ENDIAN__` otherwise. -/
def endian_big (cfg : BuildConfig) : Nat :=
  if cfg.isWin32 then 1 else ByteOrder.big.value

/-- Embedding of `endian::native`: defined as `little` on Windows ("All Windows
platforms are little endian"), `__BYTE_ORDER__` otherwise. -/
def endian_native (cfg : BuildConfig) : Nat :=
  if cfg.isWin32 then endian_little cfg else cfg.byteOrder.value

/-- Embedding of `littleendian()` (platform.h lines 547-551): constexpr, no arguments
beyond the build configuration, `endian::native == endian::little`. -/
def littleendian (cfg : BuildConfig) : Bool :=
  endian_native cfg == endian_little cfg

/-- Embedding of `bigendian()` (platform.h lines 555-559): constexpr,
`endian::native == endian::big`. -/
def bigendian (cfg : BuildConfig) : Bool :=
  endian_native cfg == endian_big cfg

/-- Outcome of evaluating the `OIIO_ALLOCA(type, size)` macro
(platform.h lines 301-305). -/
inductive AllocaResult where
  | assertFailed
  | nullptr
  | stack (bytes : Nat)
deriving DecidableEq, Repr

/-- Embedding of `OIIO_ALLOCA(type, size)`:
`(assert(size < (1<<20)), (size) != 0 ? ((type*)alloca((size) *
sizeof(type))) : nullptr)`. `checked` is true in a debug build (assert
active). The assert is evaluated first (comma operator); when it fires
the stack-allocation primitive is never reached; otherwise the
conditional yields nullptr for `size == 0` without invoking the
primitive, and invokes it with `size * sizeof(type)` bytes otherwise. -/
def OIIO_ALLOCA (checked : Bool) (sizeof_type : Nat) (size : Nat) :
    AllocaResult :=
  if checked && !(size < (1 <<< 20) : Bool) then AllocaResult.assertFailed
  else if size != 0 then AllocaResult.stack (size * sizeof_type)
  else AllocaResult.nullptr

/-- The nineteen feature queries of platform.h lines 590-608, as data, so
that sequences of calls within one process can be reasoned about. -/
inductive Query where
  | sse2 | sse3 | ssse3 | fma | sse41 | sse42 | popcnt | avx | f16c | rdrand
  | avx2 | avx512f | avx512dq | avx512ifma | avx512pf | avx512er | avx512cd
  | avx512bw | avx512vl
deriving DecidableEq, Repr

/-- Dispatch a query datum to the corresponding feature function. -/
def evalQuery (q : Query) (isX86 : Bool) (hw : CpuidFn) : Bool :=
  match q with
  | Query.sse2 => cpu_has_sse2 isX86 hw
  | Query.sse3 => cpu_has_sse3 isX86 hw
  | Query.ssse3 => cpu_has_ssse3 isX86 hw
  | Query.fma => cpu_has_fma isX86 hw
  | Query.sse41 => cpu_has_sse41 isX86 hw
  | Query.sse42 => cpu_has_sse42 isX86 hw
  | Query.popcnt => cpu_has_popcnt isX86 hw
  | Query.avx => cpu_has_avx isX86 hw
  | Query.f16c => cpu_has_f16c isX86 hw
  | Query.rdrand => cpu_has_rdrand isX86 hw
  | Query.avx2 => cpu_has_avx2 isX86 hw
  | Query.avx512f => cpu_has_avx512f isX86 hw
  | Query.avx512dq => cpu_has_avx512dq isX86 hw
  | Query.avx512ifma => cpu_has_avx512ifma isX86 hw
  | Query.avx512pf => cpu_has_avx512pf isX86 hw
  | Query.avx512er => cpu_has_avx512er isX86 hw
  | Query.avx512cd => cpu_has_avx512cd isX86 hw
  | Query.avx512bw => cpu_has_avx512bw isX86 hw
  | Query.avx512vl => cpu_has_avx512vl isX86 hw

/-- Run a sequence of feature queries in order within one process (fixed
architecture and fixed hardware capability state). Since every query uses
only a local `int i[4]` and the immutable hardware state, there is no
shared mutable state to thread: the process state visible to each call is
exactly `(isX86, hw)`. -/
def runQueries (isX86 : Bool) (hw : CpuidFn) (qs : List Query) : List Bool :=
  qs.map (fun q => evalQuery q isX86 hw)

/-- C1: on x86/x86-64 builds every feature query issues cpuid with leaf 1,
sub-leaf 0 (sse2, sse3, ssse3, fma, sse41, sse42, popcnt, avx, f16c,
rdrand) or leaf 7, sub-leaf 0 (avx2 and the avx512 family), and returns
true iff exactly its one designated bit of the four 32-bit outputs is
set: sse2 tests bit 26 of EDX; the other leaf-1 flags test bits of ECX;
the leaf-7 flags test bits of EBX, avx512vl testing bit 31 via the mask
0x80000000. -/
theorem cpu_has_bits_x86 (hw : CpuidFn) :
    cpu_has_sse2 true hw = (hw 1 0).edx.testBit 26 ∧
    cpu_has_sse3 true hw = (hw 1 0).ecx.testBit 0 ∧
    cpu_has_ssse3 true hw = (hw 1 0).ecx.testBit 9 ∧
    cpu_has_fma true hw = (hw 1 0).ecx.testBit 12 ∧
    cpu_has_sse41 true hw = (hw 1 0).ecx.testBit 19 ∧
    cpu_has_sse42 true hw = (hw 1 0).ecx.testBit 20 ∧
    cpu_has_popcnt true hw = (hw 1 0).ecx.testBit 23 ∧
    cpu_has_avx true hw = (hw 1 0).ecx.testBit 28 ∧
    cpu_has_f16c true hw = (hw 1 0).ecx.testBit 29 ∧
    cpu_has_rdrand true hw = (hw 1 0).ecx.testBit 30 ∧
    cpu_has_avx2 true hw = (hw 7 0).ebx.testBit 5 ∧
    cpu_has_avx512f true hw = (hw 7 0).ebx.testBit 16 ∧
    cpu_has_avx512dq true hw = (hw 7 0).ebx.testBit 17 ∧
    cpu_has_avx512ifma true hw = (hw 7 0).ebx.testBit 21 ∧
    cpu_has_avx512pf true hw = (hw 7 0).ebx.testBit 26 ∧
    cpu_has_avx512cd true hw = (hw 7 0).ebx.testBit 28 ∧
    cpu_has_avx512bw true hw = (hw 7 0).ebx.testBit 30 ∧
    cpu_has_avx512vl true hw = (hw 7 0).ebx.testBit 31 := by
  refine ⟨?_, ?_, ?_, ?_, ?_, ?_, ?_, ?_, ?_, ?_, ?_, ?_, ?_, ?_, ?_, ?_,
    ?_, ?_⟩ <;>
    simp [cpu_has_sse2, cpu_has_sse3, cpu_has_ssse3, cpu_has_fma,
      cpu_has_sse41, cpu_has_sse42, cpu_has_popcnt, cpu_has_avx,
      cpu_has_f16c, cpu_has_rdrand, cpu_has_avx2, cpu_has_avx512f,
      cpu_has_avx512dq, cpu_has_avx512ifma, cpu_has_avx512pf,
      cpu_has_avx512cd, cpu_has_avx512bw, cpu_has_avx512vl, cpuid] <;>
    first
    | exact and_pow_ne_zero _ _ _ (by norm_num)
    | exact mod_two_beq_one _

/-- C2: on every non-x86 architecture, cpuid writes zero into all four
output slots whatever the leaf and sub-leaf, every feature query returns
false, and cpu_has_avx512er returns false on every architecture without
consulting the hardware at all. -/
theorem cpuid_non_x86 (hw : CpuidFn) (leaf extra : Nat) (isX86 : Bool)
    (q : Query) :
    cpuid false hw leaf extra = ⟨0, 0, 0, 0⟩ ∧
    evalQuery q false hw = false ∧
    cpu_has_avx512er isX86 hw = false := by
  refine ⟨by simp [cpuid], ?_, rfl⟩
  cases q <;>
    simp [evalQuery, cpu_has_sse2, cpu_has_sse3, cpu_has_ssse3, cpu_has_fma,
      cpu_has_sse41, cpu_has_sse42, cpu_has_popcnt, cpu_has_avx,
      cpu_has_f16c, cpu_has_rdrand, cpu_has_avx2, cpu_has_avx512f,
      cpu_has_avx512dq, cpu_has_avx512ifma, cpu_has_avx512pf,
      cpu_has_avx512er, cpu_has_avx512cd, cpu_has_avx512bw,
      cpu_has_avx512vl, cpuid]

/-- C7: every feature query is deterministic within one process: its
result after any history of prior queries equals its standalone result on
the same architecture and hardware state, so two calls to the same query
agree regardless of which other queries ran before each of them. -/
theorem cpu_query_deterministic (isX86 : Bool) (hw : CpuidFn) (q : Query)
    (pre pre2 : List Query) :
    (runQueries isX86 hw (pre ++ [q])).getLast? =
      some (evalQuery q isX86 hw) ∧
    (runQueries isX86 hw (pre ++ [q])).getLast? =
      (runQueries isX86 hw (pre2 ++ [q])).getLast? := by
  have h : ∀ l : List Query,
      (runQueries isX86 hw (l ++ [q])).getLast? =
        some (evalQuery q isX86 hw) := by
    intro l
    simp [runQueries]
  exact ⟨h pre, (h pre).trans (h pre2).symm⟩

/-- C3: aligned_new first requests sizeof(T) bytes at alignment alignof(T)
from aligned_malloc; on a null result it returns null and invokes no
constructor; on a non-null result it constructs exactly one T in place at
that address and returns the pointer to it. -/
theorem aligned_new_spec (T : TypeInfo) (os : Nat → Nat → Option Nat) :
    (aligned_new T os).2.head? =
      some (AEvent.malloc T.size T.align
        (Option.map Block.addr (aligned_malloc os T.size T.align))) ∧
    (aligned_malloc os T.size T.align = none →
      (aligned_new T os).1 = none ∧
      countConstructs (aligned_new T os).2 = 0) ∧
    (∀ b, aligned_malloc os T.size T.align = some b →
      (aligned_new T os).1 = some b.addr ∧
      (aligned_new T os).2 =
        [AEvent.malloc T.size T.align (some b.addr),
         AEvent.construct b.addr] ∧
      countConstructs (aligned_new T os).2 = 1) := by
  cases h : aligned_malloc os T.size T.align <;>
    simp [aligned_new, h, countConstructs]

/-- Closed witness for C3: a concrete over-aligned type and a concrete
succeeding allocator. -/
theorem aligned_new_spec_witness :
    (aligned_new ⟨64, 32⟩ (fun _ _ => some 100)).1 = some 128 ∧
    countConstructs (aligned_new ⟨64, 32⟩ (fun _ _ => some 100)).2 = 1 :=
  ⟨((aligned_new_spec ⟨64, 32⟩ (fun _ _ => some 100)).2.2 ⟨128, 64⟩
      (by rfl)).1,
   ((aligned_new_spec ⟨64, 32⟩ (fun _ _ => some 100)).2.2 ⟨128, 64⟩
      (by rfl)).2.2⟩

/-- C4: the round trip aligned_delete(aligned_new T) on a successful
allocation runs the constructor exactly once and the destructor exactly
once, construction before destruction, and frees exactly the blocks that
aligned_malloc handed out (no leak, no double free); on allocation
failure nothing is constructed, destructed or freed. -/
theorem new_delete_roundtrip_spec (T : TypeInfo)
    (os : Nat → Nat → Option Nat) :
    (∀ b, aligned_malloc os T.size T.align = some b →
      new_delete_roundtrip T os =
        [AEvent.malloc T.size T.align (some b.addr),
         AEvent.construct b.addr, AEvent.destruct b.addr,
         AEvent.free b.addr] ∧
      countConstructs (new_delete_roundtrip T os) = 1 ∧
      countDestructs (new_delete_roundtrip T os) = 1 ∧
      freedAddrs (new_delete_roundtrip T os) =
        mallocedAddrs (new_delete_roundtrip T os)) ∧
    (aligned_malloc os T.size T.align = none →
      countConstructs (new_delete_roundtrip T os) = 0 ∧
      countDestructs (new_delete_roundtrip T os) = 0 ∧
      freedAddrs (new_delete_roundtrip T os) = [] ∧
      mallocedAddrs (new_delete_roundtrip T os) = []) := by
  cases h : aligned_malloc os T.size T.align <;>
    simp [new_delete_roundtrip, aligned_new, aligned_delete, h,
      countConstructs, countDestructs, freedAddrs, mallocedAddrs]

/-- Closed witness for C4: the concrete round trip with a succeeding
allocator placing the block at address 0. -/
theorem new_delete_roundtrip_spec_witness :
    new_delete_roundtrip ⟨64, 32⟩ (fun _ _ => some 0) =
      [AEvent.malloc 64 32 (some 0), AEvent.construct 0,
       AEvent.destruct 0, AEvent.free 0] ∧
    countConstructs (new_delete_roundtrip ⟨64, 32⟩ (fun _ _ => some 0)) = 1 :=
  ⟨((new_delete_roundtrip_spec ⟨64, 32⟩ (fun _ _ => some 0)).1 ⟨0, 64⟩
      (by rfl)).1,
   ((new_delete_roundtrip_spec ⟨64, 32⟩ (fun _ _ => some 0)).1 ⟨0, 64⟩
      (by rfl)).2.1⟩

/-- C5: aligned_delete on a non-null pointer invokes the destructor and
then aligned_free on that pointer; on null it does nothing at all. -/
theorem aligned_delete_spec (T : TypeInfo) (p : Nat) :
    aligned_delete T (some p) = [AEvent.destruct p, AEvent.free p] ∧
    aligned_delete T none = [] :=
  ⟨rfl, rfl⟩

/-- C6: the static assertion in aligned_new rejects at compile time every
type whose alignment does not exceed alignof(void*) - equality included -
and passes every type whose alignment exceeds it. -/
theorem aligned_new_static_assert_spec (T : TypeInfo)
    (alignof_voidptr : Nat) :
    (T.align ≤ alignof_voidptr →
      aligned_new_static_assert T alignof_voidptr = false) ∧
    (T.align > alignof_voidptr →
      aligned_new_static_assert T alignof_voidptr = true) ∧
    (T.align = alignof_voidptr →
      aligned_new_static_assert T alignof_voidptr = false) := by
  simp only [aligned_new_static_assert, decide_eq_false_iff_not,
    decide_eq_true_eq, gt_iff_lt, Nat.not_lt]
  exact ⟨fun h => h, fun h => h, fun h => Nat.le_of_eq h⟩

/-- Closed witness for C6: alignment 8 with alignof(void*) = 8 is
rejected, alignment 16 passes. -/
theorem aligned_new_static_assert_spec_witness :
    aligned_new_static_assert ⟨16, 8⟩ 8 = false ∧
    aligned_new_static_assert ⟨16, 16⟩ 8 = true :=
  ⟨(aligned_new_static_assert_spec ⟨16, 8⟩ 8).1 (by decide),
   (aligned_new_static_assert_spec ⟨16, 16⟩ 8).2.1 (by decide)⟩

/-- Rounding a raw address up to the next multiple of a positive
alignment lands on a multiple of that alignment. -/
theorem roundup_mod (raw align : Nat) (h : 0 < align) :
    (raw + (align - raw % align) % align) % align = 0 := by
  rcases Nat.eq_zero_or_pos (raw % align) with hr | hr
  · simp [hr, Nat.sub_zero, Nat.mod_self]
  · have hlt : raw % align < align := Nat.mod_lt _ h
    have h1 : (align - raw % align) % align = align - raw % align :=
      Nat.mod_eq_of_lt (by omega)
    rw [h1]
    have h2 : raw + (align - raw % align) =
        align * (raw / align) + align := by
      have := Nat.div_add_mod raw align
      omega
    rw [h2]
    simp [Nat.mul_add_mod, Nat.mod_self]

/-- C8 (spec-modelled): for a power-of-two alignment and a positive size,
aligned_malloc either returns null or returns a block whose address is a
multiple of the alignment and whose extent covers the full requested
size; failure is reported only through the null return (the function is
total). -/
theorem aligned_malloc_spec (os : Nat → Nat → Option Nat)
    (size align : Nat) (hpow : ∃ k, align = 2 ^ k) (_hsize : 0 < size) :
    aligned_malloc os size align = none ∨
    ∃ b, aligned_malloc os size align = some b ∧
      b.addr % align = 0 ∧ size ≤ b.size := by
  obtain ⟨k, hk⟩ := hpow
  have hal : 0 < align := hk ▸ Nat.pos_pow_of_pos k (by norm_num)
  cases h : os size align with
  | none => exact Or.inl (by simp [aligned_malloc, h])
  | some raw =>
    refine Or.inr ⟨⟨raw + (align - raw % align) % align, size⟩,
      by simp [aligned_malloc, h], roundup_mod raw align hal,
      Nat.le_refl size⟩

/-- Closed witness for C8: alignment 64, size 256, raw address 100 is
rounded up to 128. -/
theorem aligned_malloc_spec_witness :
    aligned_malloc (fun _ _ => some 100) 256 64 = none ∨
    ∃ b, aligned_malloc (fun _ _ => some 100) 256 64 = some b ∧
      b.addr % 64 = 0 ∧ 256 ≤ b.size :=
  aligned_malloc_spec (fun _ _ => some 100) 256 64 ⟨6, by norm_num⟩
    (by norm_num)

/-- C9: littleendian() is true exactly when endian::native equals
endian::little, bigendian() exactly when it equals endian::big, at most
one of the two is true on every build configuration, and on Windows
littleendian() is true and bigendian() is false. -/
theorem endian_spec (cfg : BuildConfig) :
    (littleendian cfg = true ↔ endian_native cfg = endian_little cfg) ∧
    (bigendian cfg = true ↔ endian_native cfg = endian_big cfg) ∧
    ¬(littleendian cfg = true ∧ bigendian cfg = true) ∧
    (cfg.isWin32 = true →
      littleendian cfg = true ∧ bigendian cfg = false) := by
  rcases cfg with ⟨w, bo⟩
  cases w <;> cases bo <;> decide

/-- Closed witness for C9: the Windows configuration. -/
theorem endian_spec_witness :
    littleendian ⟨true, ByteOrder.little⟩ = true ∧
    bigendian ⟨true, ByteOrder.little⟩ = false :=
  (endian_spec ⟨true, ByteOrder.little⟩).2.2.2 rfl

/-- C10: OIIO_ALLOCA with size 0 yields nullptr (never reaching the
stack-allocation primitive), and in a checked build the leading
assert(size < (1<<20)) fires for any size of 2^20 or more, so the
primitive is not reached there either. -/
theorem OIIO_ALLOCA_spec (checked : Bool) (sizeof_type size : Nat) :
    (size = 0 →
      OIIO_ALLOCA checked sizeof_type size = AllocaResult.nullptr) ∧
    (checked = true → 2 ^ 20 ≤ size →
      OIIO_ALLOCA checked sizeof_type size = AllocaResult.assertFailed) := by
  constructor
  · intro h
    subst h
    cases checked <;> rfl
  · intro hc hs
    subst hc
    have h : ¬ (size < 1048576) := by
      norm_num at hs
      exact Nat.not_lt.mpr hs
    simp [OIIO_ALLOCA, h]

/-- Closed witness for C10: size 0 yields nullptr, and the exact 1 MB
element count trips the assertion in a checked build. -/
theorem OIIO_ALLOCA_spec_witness :
    OIIO_ALLOCA true 4 0 = AllocaResult.nullptr ∧
    OIIO_ALLOCA true 4 1048576 = AllocaResult.assertFailed :=
  ⟨(OIIO_ALLOCA_spec true 4 0).1 rfl,
   (OIIO_ALLOCA_spec true 4 1048576).2 rfl (by norm_num)⟩

end OIIO
